import Mathlib

/-!
Shallow embedding of the Go package result (onur1/data): deferred,
possibly-failing computations (data.Result) and their combinators, together
with the Nilable bridge.

Modelling choices, all read off the Go source in src/result/result.go:

* A Go value of type data.Result[A] is func() (A, error): a nullary closure
  that may perform side effects when invoked and returns a pair of a value
  and a possibly-nil error.  Side effects are made explicit by threading a
  world: a list of event markers that instrumented computations append to.
  So Res A := W → W × A × Option Nat, with none playing the role of Go's
  nil error and some e a non-nil error value.

* Calling a combinator such as Map(fa, f) executes the body of Map, which
  itself invokes fa() before returning the new Result.  Construction is
  therefore an effectful expression, embedded as Build X := W → W × X.

* Go's zero value for a type (what var a A leaves in a) is modelled by
  Inhabited.default; Error returns the zero value next to the error exactly
  as the Go named return does.

* Caller-supplied Go functions that return a Result (the f of Chain, the
  onError of OrElse) may themselves have effects when called, so they are
  embedded with Build codomains; plain value-level functions (the f of Map,
  predicates, error mappers) are embedded as pure functions.
-/

namespace Result

/-- World of side effects: a log of event markers.  Invoking an instrumented
computation appends its marker, so invocations are observable. -/
abbrev W : Type := List Nat

/-- Go error values: none is Go's nil error (success), some e a non-nil
error. -/
abbrev GoErr : Type := Option Nat

/-- Embedding of Go's data.Result[A] = func() (A, error): an effectful
nullary computation yielding a value together with a possibly-nil error. -/
abbrev Res (A : Type) : Type := W → W × A × GoErr

/-- Embedding of an effectful Go expression of type X, such as the call of a
combinator (whose body invokes its input computations before returning). -/
abbrev Build (X : Type) : Type := W → W × X

/-- Invoke the computation produced by a build: first run the construction,
then invoke the constructed computation in the resulting world. -/
def runB {A : Type} (b : Build (Res A)) : Res A := fun w => (b w).2 (b w).1

/-- Outcome of invoking a computation in a world: the (value, error) pair it
returns, without the final world. -/
def outcome {A : Type} (c : Res A) (w : W) : A × GoErr := (c w).2

/-- Ok creates a result which never fails and returns a value of type A. -/
def Ok {A : Type} (a : A) : Res A := fun w => (w, a, none)

/-- Error creates a result which always fails with an error; its value slot
carries the Go zero value of A (the untouched named return). -/
def Error {A : Type} [Inhabited A] (e : Nat) : Res A := fun w => (w, default, some e)

/-- Zero creates a result which never fails and returns the zero value of A. -/
def Zero {A : Type} [Inhabited A] : Res A := fun w => (w, default, none)

/-- Map creates a result by applying a function on a succeeding result.  The
Go body invokes fa at construction time, so Map is a Build. -/
def Map {A B : Type} [Inhabited B] (fa : Res A) (f : A → B) : Build (Res B) := fun w =>
  match fa w with
  | (w1, _, some e) => (w1, Error e)
  | (w1, a, none) => (w1, Ok (f a))

/-- MapError creates a result by applying a function on a failing result; on
success it returns the original computation fa itself. -/
def MapError {A : Type} [Inhabited A] (fa : Res A) (f : Nat → Nat) : Build (Res A) := fun w =>
  match fa w with
  | (w1, _, some e) => (w1, Error (f e))
  | (w1, _, none) => (w1, fa)

/-- Ap creates a result by applying a function contained in the first result
on the value contained in the second result; fab is invoked first and its
failure short-circuits before fa is invoked. -/
def Ap {A B : Type} [Inhabited B] (fab : Res (A → B)) (fa : Res A) : Build (Res B) := fun w =>
  match fab w with
  | (w1, _, some e) => (w1, Error e)
  | (w1, ab, none) =>
    match fa w1 with
    | (w2, _, some e) => (w2, Error e)
    | (w2, a, none) => (w2, Ok (ab a))

/-- Chain creates a result which combines two results in sequence, using the
return value of one result to determine the next one. -/
def Chain {A B : Type} [Inhabited B] (ma : Res A) (f : A → Build (Res B)) :
    Build (Res B) := fun w =>
  match ma w with
  | (w1, _, some e) => (w1, Error e)
  | (w1, a, none) => f a w1

/-- Embedding of the Go helper fst: a constant function factory. -/
def fst {A B : Type} (a : A) : B → A := fun _ => a

/-- Embedding of the Go helper snd: discards its first argument. -/
def snd {A B : Type} (_ : A) : B → B := fun b => b

/-- ChainFirst composes two results in sequence, keeping only the first
value; the Go body is Chain(ma, func(a) \x7b return Map(f(a), fst(a)) \x7d). -/
def ChainFirst {A B : Type} [Inhabited A] (ma : Res A) (f : A → Build (Res B)) :
    Build (Res A) :=
  Chain ma (fun a w =>
    match f a w with
    | (w1, mb) => Map mb (fst a) w1)

/-- Bimap creates a result by mapping a pair of functions over an error or a
value contained in a result; fa is invoked exactly once. -/
def Bimap {A B : Type} [Inhabited B] (fa : Res A) (f : Nat → Nat) (g : A → B) :
    Build (Res B) := fun w =>
  match fa w with
  | (w1, _, some e) => (w1, Error (f e))
  | (w1, a, none) => (w1, Ok (g a))

/-- ApFirst combines two effectful computations, keeping only the result of
the first: Ap(Map(fa, fst), fb). -/
def ApFirst {A B : Type} [Inhabited A] (fa : Res A) (fb : Res B) : Build (Res A) := fun w =>
  match Map fa (fun a => fst (B := B) a) w with
  | (w1, mab) => Ap mab fb w1

/-- ApSecond combines two effectful computations, keeping only the result of
the second: Ap(Map(fa, snd), fb). -/
def ApSecond {A B : Type} [Inhabited B] (fa : Res A) (fb : Res B) : Build (Res B) := fun w =>
  match Map fa (fun a => snd (B := B) a) w with
  | (w1, mab) => Ap mab fb w1

/-- Fold takes two handlers and a result and returns a value by applying
exactly one of the handlers to the inner value; handlers may themselves have
effects, so they return Builds. -/
def Fold {A B : Type} (ma : Res A) (onError : Nat → Build B) (onSuccess : A → Build B) :
    Build B := fun w =>
  match ma w with
  | (w1, _, some e) => onError e w1
  | (w1, a, none) => onSuccess a w1

/-- GetOrElse invokes ma and returns its value on success, or the value the
onError handler computes from the error on failure. -/
def GetOrElse {A : Type} (ma : Res A) (onError : Nat → Build A) : Build A := fun w =>
  match ma w with
  | (w1, _, some e) => onError e w1
  | (w1, a, none) => (w1, a)

/-- OrElse recovers from a failing result by switching to the computation
onError builds from the error; on success it returns the original
computation ma itself. -/
def OrElse {A : Type} (ma : Res A) (onError : Nat → Build (Res A)) :
    Build (Res A) := fun w =>
  match ma w with
  | (w1, _, some e) => onError e w1
  | (w1, _, none) => (w1, ma)

/-- FilterOrElse fails with onFalse(value) unless the predicate holds on a
succeeding result; the Go body delegates to Chain with a lambda whose own
construction work (calling Ok or Error) is effect-free. -/
def FilterOrElse {A : Type} [Inhabited A] (ma : Res A) (predicate : A → Bool)
    (onFalse : A → Nat) : Build (Res A) :=
  Chain ma (fun a w => (w, if predicate a then Ok a else Error (onFalse a)))

/-- Fork is like Fold but its handlers return nothing: they act on the world
only. -/
def Fork {A : Type} (ma : Res A) (onError : Nat → W → W) (onSuccess : A → W → W) :
    W → W := fun w =>
  match ma w with
  | (w1, _, some e) => onError e w1
  | (w1, a, none) => onSuccess a w1

/-- FromNilable creates a result from a nilable (an optional reference),
returning the supplied error for nil values.  The Go body dereferences the
pointer only on the branch guarded by the non-nil check, which the total
pattern match mirrors: no panic is possible. -/
def FromNilable {A : Type} [Inhabited A] (ma : Option A) (onNil : Unit → Nat) : Res A :=
  match ma with
  | none => Error (onNil ())
  | some a => Ok a

/-- Sequencing of effectful Go expressions: evaluate the inner call, then
feed its value to the enclosing expression.  This is how a nested call such
as Map(MapError(fa, f), g) is evaluated: inner build first, outer build on
its result. -/
def bindB {X Y : Type} (b : Build X) (k : X → Build Y) : Build Y := fun w =>
  match b w with
  | (w1, x) => k x w1

/-- Equivalence of invocation outcomes under the Result convention: the
error channels agree, and on success the values agree.  On failure the value
slot carries a meaningless zero value, which the convention ignores. -/
def eqvOutcome {A : Type} (o1 o2 : A × GoErr) : Prop :=
  o1.2 = o2.2 ∧ (o1.2 = none → o1.1 = o2.1)

/-- Success of an invocation outcome: the returned error is nil. -/
def succeeds {A : Type} (o : A × GoErr) : Prop := o.2 = none

/-- Failure of an invocation outcome: the returned error is some non-nil
error value. -/
def fails {A : Type} (o : A × GoErr) : Prop := ∃ e, o.2 = some e

/-- Claim C3: invocation of any computation of the embedded Result type is
total (all the definitions above are total Lean functions; in particular
FromNilable dereferences only under its non-nil check) and yields a tagged
disjunction: exactly one of success or failure, never both and never
neither; the constructors Ok, Error and FromNilable produce exactly the
outcome their branch prescribes. -/
theorem invocation_total_tagged {A : Type} [Inhabited A] :
    (∀ (c : Res A) (w : W),
      (succeeds (outcome c w) ∧ ¬ fails (outcome c w)) ∨
      (fails (outcome c w) ∧ ¬ succeeds (outcome c w))) ∧
    (∀ (a : A) (w : W), outcome (Ok a) w = (a, none)) ∧
    (∀ (e : Nat) (w : W), outcome (Error (A := A) e) w = (default, some e)) ∧
    (∀ (onNil : Unit → Nat) (w : W),
      outcome (FromNilable (A := A) none onNil) w = (default, some (onNil ()))) ∧
    (∀ (a : A) (onNil : Unit → Nat) (w : W),
      outcome (FromNilable (some a) onNil) w = (a, none)) := by
  refine ⟨?_, fun a w => rfl, fun e w => rfl, fun onNil w => rfl, fun a onNil w => rfl⟩
  intro c w
  rcases h : (outcome c w).2 with _ | e
  · exact Or.inl ⟨h, fun ⟨e, he⟩ => by rw [h] at he; cases he⟩
  · exact Or.inr ⟨⟨e, h⟩, fun hs => by rw [hs] at h; cases h⟩

/-- Witness for C3 at a concrete computation: invoking Ok 0 in the empty
world succeeds and does not fail. -/
theorem invocation_total_tagged_witness :
    (succeeds (outcome (Ok (0 : Nat)) []) ∧ ¬ fails (outcome (Ok (0 : Nat)) [])) ∨
    (fails (outcome (Ok (0 : Nat)) []) ∧ ¬ succeeds (outcome (Ok (0 : Nat)) [])) :=
  invocation_total_tagged.1 (Ok 0) []

/-- Claim C4: the monad laws for Chain.  Left identity holds as a strict
equality of builds; right identity preserves the final world and the
invocation outcome up to the Result convention (on failure the value slot of
the re-packaged error is the zero value); associativity holds as a strict
equality of builds, where the nested Go calls are sequenced by bindB. -/
theorem chain_monad_laws {A B C : Type} [Inhabited A] [Inhabited B] [Inhabited C] :
    (∀ (a : A) (f : A → Build (Res B)), Chain (Ok a) f = f a) ∧
    (∀ (ma : Res A) (w : W),
      (runB (Chain ma (fun a w1 => (w1, Ok a))) w).1 = (ma w).1 ∧
      eqvOutcome (runB (Chain ma (fun a w1 => (w1, Ok a))) w).2 (ma w).2) ∧
    (∀ (ma : Res A) (f : A → Build (Res B)) (g : B → Build (Res C)),
      bindB (Chain ma f) (fun mb => Chain mb g)
        = Chain ma (fun a => bindB (f a) (fun mb => Chain mb g))) := by
  refine ⟨fun a f => rfl, ?_, ?_⟩
  · intro ma w
    rcases hma : ma w with ⟨w1, a, e⟩
    cases e with
    | none => simp [runB, Chain, hma, Ok, eqvOutcome]
    | some e => simp [runB, Chain, hma, Error, eqvOutcome]
  · intro ma f g
    funext w
    rcases hma : ma w with ⟨w1, a, e⟩
    cases e with
    | none => simp [bindB, Chain, hma]
    | some e => simp [bindB, Chain, hma, Error]

/-- Witness for C4 at concrete inputs: the three laws instantiated with
small computations over Nat. -/
theorem chain_monad_laws_witness :
    (Chain (Ok (3 : Nat)) (fun a w1 => (w1, Ok (a + 1)))
      = (fun (a : Nat) (w1 : W) => (w1, Ok (a + 1))) 3) ∧
    ((runB (Chain (Error (A := Nat) 7) (fun a w1 => (w1, Ok a))) []).1
        = (Error (A := Nat) 7 []).1 ∧
      eqvOutcome (runB (Chain (Error (A := Nat) 7) (fun a w1 => (w1, Ok a))) []).2
        (Error (A := Nat) 7 []).2) ∧
    (bindB (Chain (Ok (2 : Nat)) (fun a w1 => (w1, Ok (a * 2))))
        (fun mb => Chain mb (fun b w1 => (w1, Ok (b + 5))))
      = Chain (Ok (2 : Nat)) (fun a => bindB ((fun (a : Nat) (w1 : W) => (w1, Ok (a * 2))) a)
          (fun mb => Chain mb (fun b w1 => (w1, Ok (b + 5)))))) :=
  ⟨(chain_monad_laws (A := Nat) (B := Nat) (C := Nat)).1 3 (fun a w1 => (w1, Ok (a + 1))),
   (chain_monad_laws (A := Nat) (B := Nat) (C := Nat)).2.1 (Error 7) [],
   (chain_monad_laws (A := Nat) (B := Nat) (C := Nat)).2.2 (Ok 2)
     (fun a w1 => (w1, Ok (a * 2))) (fun b w1 => (w1, Ok (b + 5)))⟩

/-- Claim C5: the functor laws for Map.  Composition holds as a strict
equality of builds (mapping f then g over the same computation equals
mapping their composite); identity preserves the final world and the
invocation outcome up to the Result convention on both the success and the
failure path. -/
theorem map_functor_laws {A B C : Type} [Inhabited A] [Inhabited B] [Inhabited C] :
    (∀ (fa : Res A) (f : A → B) (g : B → C),
      bindB (Map fa f) (fun fb => Map fb g) = Map fa (fun a => g (f a))) ∧
    (∀ (fa : Res A) (w : W),
      (runB (Map fa (fun a => a)) w).1 = (fa w).1 ∧
      eqvOutcome (runB (Map fa (fun a => a)) w).2 (fa w).2) := by
  constructor
  · intro fa f g
    funext w
    rcases hfa : fa w with ⟨w1, a, e⟩
    cases e with
    | none => simp [bindB, Map, hfa, Ok]
    | some e => simp [bindB, Map, hfa, Error]
  · intro fa w
    rcases hfa : fa w with ⟨w1, a, e⟩
    cases e with
    | none => simp [runB, Map, hfa, Ok, eqvOutcome]
    | some e => simp [runB, Map, hfa, Error, eqvOutcome]

/-- Witness for C5 at concrete inputs: composition and identity instantiated
with small computations over Nat. -/
theorem map_functor_laws_witness :
    (bindB (Map (Ok (4 : Nat)) (fun a => a + 1)) (fun fb => Map fb (fun b => b * 2))
      = Map (Ok (4 : Nat)) (fun a => (a + 1) * 2)) ∧
    ((runB (Map (Error (A := Nat) 9) (fun a => a)) []).1 = (Error (A := Nat) 9 []).1 ∧
      eqvOutcome (runB (Map (Error (A := Nat) 9) (fun a => a)) []).2
        (Error (A := Nat) 9 []).2) :=
  ⟨(map_functor_laws (A := Nat) (B := Nat) (C := Nat)).1 (Ok 4) (fun a => a + 1)
      (fun b => b * 2),
   (map_functor_laws (B := Nat) (C := Nat)).2 (Error 9) []⟩

/-- Claim C6: OrElse on a succeeding constructor returns the original
computation itself (the very value Ok x, with the world untouched, so no new
invocation is introduced) independently of the recovery function, which is
therefore never invoked; OrElse on a failing constructor is exactly the
build the recovery function produces from the error. -/
theorem orElse_success_and_failure {A : Type} [Inhabited A] :
    (∀ (x : A) (f : Nat → Build (Res A)) (w : W), OrElse (Ok x) f w = (w, Ok x)) ∧
    (∀ (e : Nat) (f : Nat → Build (Res A)) (w : W), OrElse (Error e) f w = f e w) :=
  ⟨fun _ _ _ => rfl, fun _ _ _ => rfl⟩

/-- Claim C7: FromNilable on an absent reference is the failing computation
built from onNil, and on a present reference it is exactly the succeeding
computation carrying the dereferenced value, independently of onNil, which
is therefore never invoked on that path. -/
theorem fromNilable_cases {A : Type} [Inhabited A] :
    (∀ (onNil : Unit → Nat), FromNilable (A := A) none onNil = Error (onNil ())) ∧
    (∀ (a : A) (onNil : Unit → Nat), FromNilable (some a) onNil = Ok a) :=
  ⟨fun _ => rfl, fun _ _ => rfl⟩

/-- Claim C2: Ap is strict on the function side first.  When fab fails, the
build is the failing computation in the world fab left behind, for every
argument computation fa whatsoever — fa is never invoked and contributes no
effects.  When fab succeeds and fa fails, that error propagates; when both
succeed the function is applied to the value. -/
theorem ap_short_circuit {A B : Type} [Inhabited B] :
    (∀ (fab : Res (A → B)) (w w1 : W) (v : A → B) (e : Nat),
      fab w = (w1, v, some e) → ∀ (fa : Res A), Ap fab fa w = (w1, Error e)) ∧
    (∀ (fab : Res (A → B)) (fa : Res A) (w w1 w2 : W) (f : A → B) (v : A) (e : Nat),
      fab w = (w1, f, none) → fa w1 = (w2, v, some e) → Ap fab fa w = (w2, Error e)) ∧
    (∀ (fab : Res (A → B)) (fa : Res A) (w w1 w2 : W) (f : A → B) (a : A),
      fab w = (w1, f, none) → fa w1 = (w2, a, none) → Ap fab fa w = (w2, Ok (f a))) := by
  refine ⟨?_, ?_, ?_⟩
  · intro fab w w1 v e hfab fa
    simp [Ap, hfab]
  · intro fab fa w w1 w2 f v e hfab hfa
    simp [Ap, hfab, hfa]
  · intro fab fa w w1 w2 f a hfab hfa
    simp [Ap, hfab, hfa]

/-- Witness for C2 at concrete inputs: a failing function computation
short-circuits for an arbitrary concrete argument; a failing argument after
a succeeding function propagates its error; two successes apply the
function. -/
theorem ap_short_circuit_witness :
    Ap (Error (A := Nat → Nat) 5) (Ok 1) [] = ([], Error 5) ∧
    Ap (Ok (fun n : Nat => n + 1)) (Error (A := Nat) 6) [] = ([], Error 6) ∧
    Ap (Ok (fun n : Nat => n + 1)) (Ok 2) [] = ([], Ok 3) :=
  ⟨ap_short_circuit.1 (Error 5) [] [] default 5 rfl (Ok 1),
   ap_short_circuit.2.1 (Ok (fun n : Nat => n + 1)) (Error 6) [] [] [] (fun n => n + 1)
     default 6 rfl rfl,
   ap_short_circuit.2.2 (Ok (fun n : Nat => n + 1)) (Ok 2) [] [] [] (fun n => n + 1) 2
     rfl rfl⟩

/-- Claim C8: FilterOrElse propagates a failure of ma, succeeds with the
value when the predicate holds, and fails with onFalse applied to the value
when it does not; in particular filtering Ok (-1) through the positivity
predicate fails with the supplied error constructor applied to -1, and
filtering Ok 5 succeeds with 5. -/
theorem filterOrElse_cases {A : Type} [Inhabited A] :
    (∀ (ma : Res A) (p : A → Bool) (onF : A → Nat) (w w1 : W) (v : A) (e : Nat),
      ma w = (w1, v, some e) → FilterOrElse ma p onF w = (w1, Error e)) ∧
    (∀ (ma : Res A) (p : A → Bool) (onF : A → Nat) (w w1 : W) (v : A),
      ma w = (w1, v, none) → p v = true → FilterOrElse ma p onF w = (w1, Ok v)) ∧
    (∀ (ma : Res A) (p : A → Bool) (onF : A → Nat) (w w1 : W) (v : A),
      ma w = (w1, v, none) → p v = false →
        FilterOrElse ma p onF w = (w1, Error (onF v))) ∧
    (∀ (mk : Int → Nat) (w : W),
      outcome (runB (FilterOrElse (Ok (-1 : Int)) (fun v => decide (0 < v)) mk)) w
        = (default, some (mk (-1)))) ∧
    (∀ (mk : Int → Nat) (w : W),
      outcome (runB (FilterOrElse (Ok (5 : Int)) (fun v => decide (0 < v)) mk)) w
        = (5, none)) := by
  refine ⟨?_, ?_, ?_, fun mk w => rfl, fun mk w => rfl⟩
  · intro ma p onF w w1 v e hma
    simp [FilterOrElse, Chain, hma]
  · intro ma p onF w w1 v hma hp
    simp [FilterOrElse, Chain, hma, hp]
  · intro ma p onF w w1 v hma hp
    simp [FilterOrElse, Chain, hma, hp]

/-- Witness for C8 at concrete inputs: the three branches instantiated with
small computations over Nat, each hypothesis discharged by computation. -/
theorem filterOrElse_cases_witness :
    FilterOrElse (Error (A := Nat) 4) (fun v => decide (0 < v)) (fun _ => 11) []
      = ([], Error 4) ∧
    FilterOrElse (Ok (3 : Nat)) (fun v => decide (0 < v)) (fun _ => 11) []
      = ([], Ok 3) ∧
    FilterOrElse (Ok (0 : Nat)) (fun v => decide (0 < v)) (fun _ => 11) []
      = ([], Error 11) :=
  ⟨filterOrElse_cases.1 (Error 4) (fun v => decide (0 < v)) (fun _ => 11) [] [] default 4
     rfl,
   filterOrElse_cases.2.1 (Ok 3) (fun v => decide (0 < v)) (fun _ => 11) [] [] 3
     rfl (by decide),
   filterOrElse_cases.2.2.1 (Ok 0) (fun v => decide (0 < v)) (fun _ => 11) [] [] 0
     rfl (by decide)⟩

/-- Claim C9: Fold and Fork invoke ma once and then dispatch to exactly the
handler matching the actual outcome: the build continues from the world a
single invocation of ma produced, it is exactly the matching handler's
build, and it does not depend on the other handler, which is therefore
never invoked; Fold returns that handler's result. -/
theorem fold_fork_dispatch {A B : Type} :
    (∀ (ma : Res A) (onE : Nat → Build B) (onS : A → Build B) (w w1 : W) (v : A) (e : Nat),
      ma w = (w1, v, some e) → Fold ma onE onS w = onE e w1) ∧
    (∀ (ma : Res A) (onE : Nat → Build B) (onS : A → Build B) (w w1 : W) (v : A),
      ma w = (w1, v, none) → Fold ma onE onS w = onS v w1) ∧
    (∀ (ma : Res A) (onE : Nat → W → W) (onS : A → W → W) (w w1 : W) (v : A) (e : Nat),
      ma w = (w1, v, some e) → Fork ma onE onS w = onE e w1) ∧
    (∀ (ma : Res A) (onE : Nat → W → W) (onS : A → W → W) (w w1 : W) (v : A),
      ma w = (w1, v, none) → Fork ma onE onS w = onS v w1) := by
  refine ⟨?_, ?_, ?_, ?_⟩
  · intro ma onE onS w w1 v e hma
    simp [Fold, hma]
  · intro ma onE onS w w1 v hma
    simp [Fold, hma]
  · intro ma onE onS w w1 v e hma
    simp [Fork, hma]
  · intro ma onE onS w w1 v hma
    simp [Fork, hma]

/-- Witness for C9 at concrete inputs: both consumers dispatched on a
failing and on a succeeding computation over Nat, hypotheses discharged by
computation. -/
theorem fold_fork_dispatch_witness :
    Fold (Error (A := Nat) 8) (fun e w1 => (w1, e + 100)) (fun a w1 => (w1, a)) []
      = ((fun (e : Nat) (w1 : W) => (w1, e + 100)) 8 []) ∧
    Fold (Ok (2 : Nat)) (fun e w1 => (w1, e + 100)) (fun a w1 => (w1, a)) []
      = ((fun (a : Nat) (w1 : W) => (w1, a)) 2 []) ∧
    Fork (Error (A := Nat) 8) (fun e w1 => w1 ++ [e]) (fun a w1 => w1 ++ [a, a]) []
      = ((fun (e : Nat) (w1 : W) => w1 ++ [e]) 8 []) ∧
    Fork (Ok (2 : Nat)) (fun e w1 => w1 ++ [e]) (fun a w1 => w1 ++ [a, a]) []
      = ((fun (a : Nat) (w1 : W) => w1 ++ [a, a]) 2 []) :=
  ⟨(fold_fork_dispatch (A := Nat) (B := Nat)).1 (Error 8) (fun e w1 => (w1, e + 100))
     (fun a w1 => (w1, a)) [] [] default 8 rfl,
   (fold_fork_dispatch (A := Nat) (B := Nat)).2.1 (Ok 2) (fun e w1 => (w1, e + 100))
     (fun a w1 => (w1, a)) [] [] 2 rfl,
   (fold_fork_dispatch (A := Nat) (B := Nat)).2.2.1 (Error 8) (fun e w1 => w1 ++ [e])
     (fun a w1 => w1 ++ [a, a]) [] [] default 8 rfl,
   (fold_fork_dispatch (A := Nat) (B := Nat)).2.2.2 (Ok 2) (fun e w1 => w1 ++ [e])
     (fun a w1 => w1 ++ [a, a]) [] [] 2 rfl⟩

/-- Number of occurrences of marker i in a world. -/
def wcount (i : Nat) : W → Nat
  | [] => 0
  | j :: t => (if j = i then 1 else 0) + wcount i t

lemma wcount_append (i : Nat) (u v : W) :
    wcount i (u ++ v) = wcount i u + wcount i v := by
  induction u with
  | nil => simp [wcount]
  | cons j t ih => simp [wcount, ih, Nat.add_assoc]

/-- Instrumentation: calls i c behaves like c but appends marker i to the
world each time it is invoked, before running c, so occurrences of i count
its invocations. -/
def calls (i : Nat) {A : Type} (c : Res A) : Res A := fun w => c (w ++ [i])

/-- A computation is silent on marker i when invoking it never changes the
number of occurrences of i in the world. -/
def silentR (i : Nat) {A : Type} (c : Res A) : Prop :=
  ∀ w, wcount i (c w).1 = wcount i w

/-- A build is silent on marker i when running it never changes the number
of occurrences of i in the world. -/
def silentB (i : Nat) {X : Type} (b : Build X) : Prop :=
  ∀ w, wcount i (b w).1 = wcount i w

/-- A result-returning function is fully silent on marker i when each call
is a silent build whose returned computation is itself silent. -/
def silentF (i : Nat) {A B : Type} (f : A → Build (Res B)) : Prop :=
  ∀ a, silentB i (f a) ∧ ∀ w, silentR i ((f a w).2)

lemma calls_count_once {A : Type} (i : Nat) (c : Res A) (hc : silentR i c) (w : W) :
    wcount i (c (w ++ [i])).1 = wcount i w + 1 := by
  have h := hc (w ++ [i])
  rw [h, wcount_append]
  simp [wcount]

lemma map_build_count {A B : Type} [Inhabited B] (i : Nat) (c : Res A) (f : A → B)
    (w : W) (hc : silentR i c) :
    wcount i ((Map (calls i c) f) w).1 = wcount i w + 1 := by
  have h1 := calls_count_once i c hc w
  rcases hcw : c (w ++ [i]) with ⟨w1, a, e⟩
  rw [hcw] at h1
  cases e <;> simp [Map, calls, hcw, h1]

lemma mapError_build_count {A : Type} [Inhabited A] (i : Nat) (c : Res A) (f : Nat → Nat)
    (w : W) (hc : silentR i c) :
    wcount i ((MapError (calls i c) f) w).1 = wcount i w + 1 := by
  have h1 := calls_count_once i c hc w
  rcases hcw : c (w ++ [i]) with ⟨w1, a, e⟩
  rw [hcw] at h1
  cases e <;> simp [MapError, calls, hcw, h1]

lemma bimap_build_count {A B : Type} [Inhabited B] (i : Nat) (c : Res A) (f : Nat → Nat)
    (g : A → B) (w : W) (hc : silentR i c) :
    wcount i ((Bimap (calls i c) f g) w).1 = wcount i w + 1 := by
  have h1 := calls_count_once i c hc w
  rcases hcw : c (w ++ [i]) with ⟨w1, a, e⟩
  rw [hcw] at h1
  cases e <;> simp [Bimap, calls, hcw, h1]

lemma ap_build_count {A B : Type} [Inhabited B] (i : Nat) (c : Res (A → B)) (fa : Res A)
    (w : W) (hc : silentR i c) (hfa : silentR i fa) :
    wcount i ((Ap (calls i c) fa) w).1 = wcount i w + 1 := by
  have h1 := calls_count_once i c hc w
  rcases hcw : c (w ++ [i]) with ⟨w1, g, e⟩
  rw [hcw] at h1
  cases e with
  | some e => simp [Ap, calls, hcw, h1]
  | none =>
    have h2 := hfa w1
    rcases hfw : fa w1 with ⟨w2, a, e2⟩
    rw [hfw] at h2
    cases e2 <;> simp [Ap, calls, hcw, hfw, h1, h2]

lemma chain_build_count {A B : Type} [Inhabited B] (i : Nat) (c : Res A)
    (f : A → Build (Res B)) (w : W) (hc : silentR i c) (hf : ∀ a, silentB i (f a)) :
    wcount i ((Chain (calls i c) f) w).1 = wcount i w + 1 := by
  have h1 := calls_count_once i c hc w
  rcases hcw : c (w ++ [i]) with ⟨w1, a, e⟩
  rw [hcw] at h1
  cases e with
  | some e => simp [Chain, calls, hcw, h1]
  | none =>
    have h2 := hf a w1
    simp [Chain, calls, hcw, h2, h1]

lemma chainFirst_build_count {A B : Type} [Inhabited A] (i : Nat) (c : Res A)
    (f : A → Build (Res B)) (w : W) (hc : silentR i c) (hf : silentF i f) :
    wcount i ((ChainFirst (calls i c) f) w).1 = wcount i w + 1 := by
  have h1 := calls_count_once i c hc w
  rcases hcw : c (w ++ [i]) with ⟨w1, a, e⟩
  rw [hcw] at h1
  cases e with
  | some e => simp [ChainFirst, Chain, calls, hcw, h1]
  | none =>
    have h2 := (hf a).1 w1
    have hs := (hf a).2 w1
    rcases hfw : f a w1 with ⟨w2, mb⟩
    rw [hfw] at h2 hs
    have h2a : wcount i w2 = wcount i w1 := h2
    have h3 : wcount i (mb w2).1 = wcount i w2 := hs w2
    rcases hmb : mb w2 with ⟨w3, b, e2⟩
    have h3a : wcount i w3 = wcount i w2 := by rw [hmb] at h3; exact h3
    cases e2 <;> simp [ChainFirst, Chain, Map, calls, hcw, hfw, hmb, h1, h2a, h3a]

lemma filterOrElse_build_count {A : Type} [Inhabited A] (i : Nat) (c : Res A)
    (p : A → Bool) (onF : A → Nat) (w : W) (hc : silentR i c) :
    wcount i ((FilterOrElse (calls i c) p onF) w).1 = wcount i w + 1 := by
  have h1 := calls_count_once i c hc w
  rcases hcw : c (w ++ [i]) with ⟨w1, a, e⟩
  rw [hcw] at h1
  cases e <;> simp [FilterOrElse, Chain, calls, hcw, h1]

lemma orElse_build_count {A : Type} (i : Nat) (c : Res A) (h : Nat → Build (Res A))
    (w : W) (hc : silentR i c) (hh : ∀ e, silentB i (h e)) :
    wcount i ((OrElse (calls i c) h) w).1 = wcount i w + 1 := by
  have h1 := calls_count_once i c hc w
  rcases hcw : c (w ++ [i]) with ⟨w1, a, e⟩
  rw [hcw] at h1
  cases e with
  | some e =>
    have h2 := hh e w1
    simp [OrElse, calls, hcw, h2, h1]
  | none => simp [OrElse, calls, hcw, h1]

/-- Instrumented computation used in the counterexample: logs marker 0
whenever it is invoked and yields 0. -/
def tickR : Res Nat := fun w => (w ++ [0], 0, none)

/-- Claim C1 is false of the code: building Map from the instrumented input
tickR already appends tickR's invocation marker to the world — the input is
invoked during construction, before the caller ever invokes the composed
result. -/
theorem build_is_lazy_counterexample :
    ¬ ((Map tickR (fun n => n) []).1 = ([] : W)) := by decide

/-- Claim C1 amended: building a transformation combinator is eager, not
lazy: constructing Map, MapError, Bimap, Ap, Chain, ChainFirst, FilterOrElse
or OrElse from an input computation invokes that input computation exactly
once during construction — with the input instrumented to log marker i at
each invocation, and every other supplied computation or handler silent on
i, the world after construction holds exactly one more occurrence of i. -/
theorem build_invokes_input_eagerly {A B : Type} [Inhabited A] [Inhabited B] (i : Nat) :
    (∀ (c : Res A) (f : A → B) (w : W), silentR i c →
      wcount i ((Map (calls i c) f) w).1 = wcount i w + 1) ∧
    (∀ (c : Res A) (f : Nat → Nat) (w : W), silentR i c →
      wcount i ((MapError (calls i c) f) w).1 = wcount i w + 1) ∧
    (∀ (c : Res A) (f : Nat → Nat) (g : A → B) (w : W), silentR i c →
      wcount i ((Bimap (calls i c) f g) w).1 = wcount i w + 1) ∧
    (∀ (c : Res (A → B)) (fa : Res A) (w : W), silentR i c → silentR i fa →
      wcount i ((Ap (calls i c) fa) w).1 = wcount i w + 1) ∧
    (∀ (c : Res A) (f : A → Build (Res B)) (w : W), silentR i c →
      (∀ a, silentB i (f a)) →
      wcount i ((Chain (calls i c) f) w).1 = wcount i w + 1) ∧
    (∀ (c : Res A) (f : A → Build (Res B)) (w : W), silentR i c → silentF i f →
      wcount i ((ChainFirst (calls i c) f) w).1 = wcount i w + 1) ∧
    (∀ (c : Res A) (p : A → Bool) (onF : A → Nat) (w : W), silentR i c →
      wcount i ((FilterOrElse (calls i c) p onF) w).1 = wcount i w + 1) ∧
    (∀ (c : Res A) (h : Nat → Build (Res A)) (w : W), silentR i c →
      (∀ e, silentB i (h e)) →
      wcount i ((OrElse (calls i c) h) w).1 = wcount i w + 1) :=
  ⟨fun c f w hc => map_build_count i c f w hc,
   fun c f w hc => mapError_build_count i c f w hc,
   fun c f g w hc => bimap_build_count i c f g w hc,
   fun c fa w hc hfa => ap_build_count i c fa w hc hfa,
   fun c f w hc hf => chain_build_count i c f w hc hf,
   fun c f w hc hf => chainFirst_build_count i c f w hc hf,
   fun c p onF w hc => filterOrElse_build_count i c p onF w hc,
   fun c h w hc hh => orElse_build_count i c h w hc hh⟩

/-- Witness for the amended C1 at concrete inputs: building each of the
eight combinators from the instrumented Ok 5 (with every other argument
silent on marker 0) records exactly one invocation. -/
theorem build_invokes_input_eagerly_witness :
    wcount 0 ((Map (calls 0 (Ok (5 : Nat))) (fun n => n)) []).1 = wcount 0 ([] : W) + 1 ∧
    wcount 0 ((MapError (calls 0 (Ok (5 : Nat))) (fun e => e)) []).1
      = wcount 0 ([] : W) + 1 ∧
    wcount 0 ((Bimap (calls 0 (Ok (5 : Nat))) (fun e => e) (fun n => n)) []).1
      = wcount 0 ([] : W) + 1 ∧
    wcount 0 ((Ap (calls 0 (Ok (fun n : Nat => n + 1))) (Ok 2)) []).1
      = wcount 0 ([] : W) + 1 ∧
    wcount 0 ((Chain (calls 0 (Ok (5 : Nat))) (fun a w1 => (w1, Ok a))) []).1
      = wcount 0 ([] : W) + 1 ∧
    wcount 0 ((ChainFirst (calls 0 (Ok (5 : Nat))) (fun a w1 => (w1, Ok a))) []).1
      = wcount 0 ([] : W) + 1 ∧
    wcount 0 ((FilterOrElse (calls 0 (Ok (5 : Nat))) (fun _ => true) (fun _ => 3)) []).1
      = wcount 0 ([] : W) + 1 ∧
    wcount 0 ((OrElse (calls 0 (Ok (5 : Nat))) (fun e w1 => (w1, Error e))) []).1
      = wcount 0 ([] : W) + 1 :=
  ⟨(build_invokes_input_eagerly (A := Nat) (B := Nat) 0).1 (Ok 5) (fun n => n) []
     (fun _ => rfl),
   (build_invokes_input_eagerly (A := Nat) (B := Nat) 0).2.1 (Ok 5) (fun e => e) []
     (fun _ => rfl),
   (build_invokes_input_eagerly (A := Nat) (B := Nat) 0).2.2.1 (Ok 5) (fun e => e)
     (fun n => n) [] (fun _ => rfl),
   (build_invokes_input_eagerly (A := Nat) (B := Nat) 0).2.2.2.1 (Ok (fun n => n + 1))
     (Ok 2) [] (fun _ => rfl) (fun _ => rfl),
   (build_invokes_input_eagerly (A := Nat) (B := Nat) 0).2.2.2.2.1 (Ok 5)
     (fun a w1 => (w1, Ok a)) [] (fun _ => rfl) (fun _ _ => rfl),
   (build_invokes_input_eagerly (A := Nat) (B := Nat) 0).2.2.2.2.2.1 (Ok 5)
     (fun a w1 => (w1, Ok a)) [] (fun _ => rfl)
     (fun _ => ⟨fun _ => rfl, fun _ _ => rfl⟩),
   (build_invokes_input_eagerly (A := Nat) (B := Nat) 0).2.2.2.2.2.2.1 (Ok 5)
     (fun _ => true) (fun _ => 3) [] (fun _ => rfl),
   (build_invokes_input_eagerly (A := Nat) (B := Nat) 0).2.2.2.2.2.2.2 (Ok 5)
     (fun e w1 => (w1, Error e)) [] (fun _ => rfl) (fun _ _ => rfl)⟩

/-- A computation whose value depends on the world it is invoked in: it logs
marker 0 and yields the length of the world it observed. -/
def peek : Res Nat := fun w => (w ++ [0], w.length, none)

/-- Claim C10 is false of the code as universally stated: for the effectful
computation peek, Bimap invokes it once while the composite
Map(MapError(..), ..) invokes it twice (MapError returns the original
computation on success and Map invokes it again), and the observed values
differ. -/
theorem bimap_decomposition_counterexample :
    ¬ (outcome (runB (Bimap peek (fun e => e) (fun n => n))) []
      = outcome (runB (bindB (MapError peek (fun e => e))
          (fun fa1 => Map fa1 (fun n => n)))) []) := by decide

/-- Claim C10 amended: Bimap decomposes into the two single-channel maps for
every computation whose invocation outcome is stable under re-invocation
(in particular every effect-free one); on the failure path the
decomposition holds unconditionally, both sides failing with the mapped
error. -/
theorem bimap_decomposition_stable {A B : Type} [Inhabited A] [Inhabited B] :
    (∀ (fa : Res A) (f : Nat → Nat) (g : A → B) (w : W),
      (∀ w1, (fa (fa w1).1).2 = (fa w1).2) →
      outcome (runB (Bimap fa f g)) w
        = outcome (runB (bindB (MapError fa f) (fun fa1 => Map fa1 g))) w) ∧
    (∀ (fa : Res A) (f : Nat → Nat) (g : A → B) (w w1 : W) (v : A) (e : Nat),
      fa w = (w1, v, some e) →
        outcome (runB (Bimap fa f g)) w = (default, some (f e)) ∧
        outcome (runB (bindB (MapError fa f) (fun fa1 => Map fa1 g))) w
          = (default, some (f e))) := by
  constructor
  · intro fa f g w hst
    rcases hfa : fa w with ⟨w1, a, e⟩
    cases e with
    | some e => simp [outcome, runB, Bimap, bindB, MapError, Map, Error, hfa]
    | none =>
      have hst1 : (fa w1).2 = (a, none) := by
        have h := hst w
        rw [hfa] at h
        simpa using h
      rcases hfa2 : fa w1 with ⟨w2, a2, e2⟩
      rw [hfa2] at hst1
      simp only [Prod.mk.injEq] at hst1
      obtain ⟨rfl, rfl⟩ := hst1
      simp [outcome, runB, Bimap, bindB, MapError, Map, Ok, hfa, hfa2]
  · intro fa f g w w1 v e hfa
    constructor
    · simp [outcome, runB, Bimap, Error, hfa]
    · simp [outcome, runB, bindB, MapError, Map, Error, hfa]

/-- Witness for the amended C10 at concrete inputs: the stable conjunct
applied to the effect-free Ok 1, and the failure conjunct applied to
Error 3, both with concrete channel maps. -/
theorem bimap_decomposition_stable_witness :
    (outcome (runB (Bimap (Ok (1 : Nat)) (fun e => e + 1) (fun n => n * 2))) []
      = outcome (runB (bindB (MapError (Ok (1 : Nat)) (fun e => e + 1))
          (fun fa1 => Map fa1 (fun n => n * 2)))) []) ∧
    (outcome (runB (Bimap (Error (A := Nat) 3) (fun e => e + 1) (fun n => n * 2))) []
        = (default, some 4) ∧
      outcome (runB (bindB (MapError (Error (A := Nat) 3) (fun e => e + 1))
          (fun fa1 => Map fa1 (fun n => n * 2)))) [] = (default, some 4)) :=
  ⟨(bimap_decomposition_stable (A := Nat) (B := Nat)).1 (Ok 1) (fun e => e + 1)
     (fun n => n * 2) [] (fun _ => rfl),
   (bimap_decomposition_stable (A := Nat) (B := Nat)).2 (Error 3) (fun e => e + 1)
     (fun n => n * 2) [] [] default 3 rfl⟩

end Result
